import Mathlib

/-!
Verification of the BMI weight-status classifier (`BMI_web.py`).

Shallow embedding conventions:
* Python floats are modelled as exact rationals (`ℚ`); arithmetic in the
  source (`weight_kg / height_m ** 2`, threshold comparisons) is embedded
  verbatim over `ℚ`.
* The Python dict `thresholds` is modelled as a function
  `String → Option GenderDict`, built by folding the row list exactly as the
  `for index, row in df.iterrows()` loop does (dict assignment = pointwise
  update), so dict semantics (exact-key lookup, last-write-wins) are preserved.
* `f"{x:.1f}"` is modelled by rounding `10*x` half-to-even and printing the
  one-decimal string; inside error messages the interpolated number is
  rendered with `toString`, standing in for Python's `str`.
* An uncaught Python exception is a distinguished result constructor:
  `height_m = 0` makes `weight_kg / (height_m ** 2)` raise
  `ZeroDivisionError`; `thresholds[age_key][gender]` raises `KeyError` when
  `gender` is neither "男" nor "女".
-/

attribute [local semireducible] Rat.add Rat.sub Rat.mul Rat.inv Rat.ofScientific

/-- One parsed row of the Excel sheet: the five required columns
`年龄 (岁)`, `男孩超重 (BMI)`, `男孩肥胖 (BMI)`, `女孩超重 (BMI)`,
`女孩肥胖 (BMI)` (file I/O and the column-presence check of
`load_thresholds_from_excel` happen before the construction loop). -/
structure RawRow where
  age : ℚ
  male_overweight : ℚ
  male_obese : ℚ
  female_overweight : ℚ
  female_obese : ℚ
deriving DecidableEq, Repr

/-- The inner dict `{"超重": ..., "肥胖": ...}` of a sex's thresholds. -/
structure Limits where
  overweight : ℚ
  obese : ℚ
deriving DecidableEq, Repr

/-- The dict `{"男": {...}, "女": {...}}` stored under one age key. -/
structure GenderDict where
  male : Limits
  female : Limits
deriving DecidableEq, Repr

/-- Access `d[gender]` on the two-key dict: `none` models an uncaught
`KeyError` for any string other than "男" and "女". -/
def genderGet (d : GenderDict) (gender : String) : Option Limits :=
  if gender = "男" then some d.male
  else if gender = "女" then some d.female
  else none

/-- Round half to even, as Python's fixed-point formatting does. -/
def roundHalfEven (x : ℚ) : ℤ :=
  let n := Rat.floor x
  let frac := x - (n : ℚ)
  if frac < 1/2 then n
  else if 1/2 < frac then n + 1
  else if n % 2 = 0 then n else n + 1

/-- `f"{age:.1f}"`: the one-decimal-place string key derived from an age. -/
def ageKeyStr (age : ℚ) : String :=
  let n := roundHalfEven (10 * age)
  let s := toString (n.natAbs / 10) ++ "." ++ toString (n.natAbs % 10)
  if n < 0 then "-" ++ s else s

/-- The thresholds dict built by `load_thresholds_from_excel`. -/
def ThresholdTable : Type := String → Option GenderDict

/-- The value stored for a row:
`{"男": {"超重": .., "肥胖": ..}, "女": {"超重": .., "肥胖": ..}}`. -/
def rowEntry (r : RawRow) : GenderDict :=
  ⟨⟨r.male_overweight, r.male_obese⟩, ⟨r.female_overweight, r.female_obese⟩⟩

/-- One iteration of the loop: `thresholds[age_key] = {...}`. -/
def insertRow (acc : ThresholdTable) (r : RawRow) : ThresholdTable :=
  fun k => if k = ageKeyStr r.age then some (rowEntry r) else acc k

/-- The construction loop of `load_thresholds_from_excel` (lines 31-38),
given the already-parsed rows: starts from the empty dict and assigns
`thresholds[f"{row.age:.1f}"]` for each row in order. -/
def load_thresholds_from_excel (rows : List RawRow) : ThresholdTable :=
  rows.foldl insertRow (fun _ => none)

/-- The error message returned for an out-of-range age (line 48). -/
def age_error_msg (age : ℚ) : String :=
  "年龄 " ++ toString age ++ " 超出范围 (2.0-18.0岁)，无法评估。"

/-- The error message returned when the age key is absent (line 56). -/
def not_found_msg (age_key : String) : String :=
  "数据源中未找到年龄为 " ++ age_key ++ " 的精确数据，请检查Excel文件。"

/-- Outcome of a call to `check_weight_status`: either the returned 4-tuple
`(status_or_message, bmi, overweight_limit, obese_limit)` with `Option` for
Python's `None`, or an uncaught exception. -/
inductive PyResult where
  | ret (status : String) (bmi : Option ℚ) (overweight : Option ℚ) (obese : Option ℚ)
  | zeroDivisionError
  | keyError (key : String)
deriving DecidableEq, Repr

/-- `check_weight_status` (lines 42-70), embedded step for step:
age-range check, BMI computation (raising on `height_m = 0`), exact-key
threshold lookup, gender dict access (raising `KeyError` off "男"/"女"),
then the three-way comparison. -/
def check_weight_status (age height_m weight_kg : ℚ) (gender : String)
    (thresholds : ThresholdTable) : PyResult :=
  if ¬ (2 ≤ age ∧ age ≤ 18) then
    .ret (age_error_msg age) none none none
  else if height_m = 0 then
    .zeroDivisionError
  else
    let bmi := weight_kg / height_m ^ 2
    let age_key := ageKeyStr age
    match thresholds age_key with
    | none => .ret (not_found_msg age_key) none none none
    | some d =>
      match genderGet d gender with
      | none => .keyError gender
      | some limits =>
        let overweight_limit := limits.overweight
        let obese_limit := limits.obese
        let result_status :=
          if bmi < overweight_limit then "正常"
          else if overweight_limit ≤ bmi ∧ bmi < obese_limit then "超重"
          else "肥胖"
        .ret result_status (some bmi) (some overweight_limit) (some obese_limit)

/-- A result is a success iff it is a returned tuple whose `bmi` component is
not `None` — the exact test `main` uses at line 120. -/
def isSuccess : PyResult → Bool
  | .ret _ (some _) _ _ => true
  | _ => false

/-- The message `main` shows when the height/weight guard fails (line 113). -/
def height_weight_msg : String := "身高和体重必须是大于零的有效数值"

/-- What `main` renders after the form is submitted. -/
inductive MainOutcome where
  | inputError (msg : String)
  | resultShown (status : String) (bmi overweight obese : Option ℚ)
  | errorShown (msg : String)
  | crashed (r : PyResult)
deriving DecidableEq, Repr

/-- The post-submission logic of `main` (lines 110-139): the UI-level
positivity guard on height and weight, then the call to
`check_weight_status`, then the `bmi is not None` dispatch. -/
def main_submit (input_age input_height input_weight : ℚ) (input_gender : String)
    (tbl : ThresholdTable) : MainOutcome :=
  if ¬ (input_height > 0 ∧ input_weight > 0) then
    .inputError height_weight_msg
  else
    match check_weight_status input_age input_height input_weight input_gender tbl with
    | .ret status bmi overweight obese =>
      if bmi.isSome then .resultShown status bmi overweight obese
      else .errorShown status
    | r => .crashed r

/-- The table of spec scenario 1:
row `age=10.0, maleOverweight=19.0, maleObese=21.5, femaleOverweight=18.5,
femaleObese=21.0`. -/
def exampleRow : RawRow := ⟨10, 19, 21.5, 18.5, 21⟩

/-- The one-row threshold table built from `exampleRow`. -/
def exampleTable : ThresholdTable := load_thresholds_from_excel [exampleRow]

/-- A second row whose age produces the same key "10.0" as `exampleRow` but
with different thresholds (used to exhibit overwriting). -/
def exampleRowB : RawRow := ⟨10, 20, 22, 19, 21.5⟩

/-- A row whose age 7.47 produces the key "7.5" (used to exhibit exact-key
lookup: a request for age 7.44 keys to "7.4" and misses it). -/
def exampleRow747 : RawRow := ⟨747/100, 19, 21.5, 18.5, 21⟩

/-- Folding the construction loop over rows none of which produce the key `k`
leaves the dict unchanged at `k`. -/
lemma foldl_insertRow_not_mem (l : List RawRow) :
    ∀ (acc : ThresholdTable) (k : String),
      (∀ r ∈ l, ageKeyStr r.age ≠ k) → List.foldl insertRow acc l k = acc k := by
  induction l with
  | nil => intro acc k _; rfl
  | cons a t ih =>
    intro acc k hne
    simp only [List.foldl_cons]
    rw [ih _ k (fun r hr => hne r (List.mem_cons_of_mem a hr))]
    unfold insertRow
    rw [if_neg (fun he => hne a (List.mem_cons_self a t) he.symm)]

/-- A key produced by none of the rows is absent from the built dict. -/
lemma load_thresholds_eq_none (rows : List RawRow) (k : String)
    (h : ∀ r ∈ rows, ageKeyStr r.age ≠ k) :
    load_thresholds_from_excel rows k = none := by
  unfold load_thresholds_from_excel
  rw [foldl_insertRow_not_mem rows _ k h]

/-- Unfolding of `check_weight_status` on the path where all three guards
pass: in-range age, nonzero height, key and gender both present. -/
lemma check_weight_status_success (age h w : ℚ) (g : String)
    (tbl : ThresholdTable) (d : GenderDict) (limits : Limits)
    (h1 : 2 ≤ age) (h2 : age ≤ 18) (hh : h ≠ 0)
    (ht : tbl (ageKeyStr age) = some d) (hg : genderGet d g = some limits) :
    check_weight_status age h w g tbl =
      .ret (if w / h ^ 2 < limits.overweight then "正常"
            else if limits.overweight ≤ w / h ^ 2 ∧ w / h ^ 2 < limits.obese then "超重"
            else "肥胖")
        (some (w / h ^ 2)) (some limits.overweight) (some limits.obese) := by
  have hrange : (2 ≤ age ∧ age ≤ 18) := ⟨h1, h2⟩
  simp only [check_weight_status, hrange, and_self, not_true_eq_false, if_false,
    hh, ite_false, ht, hg]

/-- C4: for every age strictly below 2.0 or strictly above 18.0,
`check_weight_status` returns the age-out-of-range error tuple — the message
with the three `None`s — for every height (including 0), weight, gender and
table, so neither the BMI nor any thresholds are computed or returned. -/
theorem C4_age_out_of_range (age h w : ℚ) (g : String) (tbl : ThresholdTable)
    (hage : age < 2 ∨ 18 < age) :
    check_weight_status age h w g tbl = .ret (age_error_msg age) none none none := by
  unfold check_weight_status
  rw [if_pos]
  rintro ⟨ha, hb⟩
  rcases hage with h1 | h1 <;> linarith

/-- C4 witness: age 19 (with height 0, which would raise on the BMI line if
it were reached) yields the error tuple. -/
theorem C4_witness :
    check_weight_status 19 0 30 "男" exampleTable =
      .ret (age_error_msg 19) none none none :=
  C4_age_out_of_range 19 0 30 "男" exampleTable (Or.inr (by decide))

/-- C5: threshold lookup is exact-key on the one-decimal age key: whenever no
row of the source produces the key of the requested in-range age, the call
fails with the not-found error tuple — both the build loop and the lookup use
the same `ageKeyStr` formatting rule. -/
theorem C5_exact_key_lookup (rows : List RawRow) (age h w : ℚ) (g : String)
    (h1 : 2 ≤ age) (h2 : age ≤ 18) (hh : h ≠ 0)
    (habs : ∀ r ∈ rows, ageKeyStr r.age ≠ ageKeyStr age) :
    check_weight_status age h w g (load_thresholds_from_excel rows) =
      .ret (not_found_msg (ageKeyStr age)) none none none := by
  have hrange : (2 ≤ age ∧ age ≤ 18) := ⟨h1, h2⟩
  have hnone := load_thresholds_eq_none rows (ageKeyStr age) habs
  simp only [check_weight_status, hrange, and_self, not_true_eq_false, if_false,
    hh, ite_false, hnone]

/-- C5 witness: the table built from one row with age 7.47 (key "7.5") makes
a request with age 7.44 (key "7.4") fail with the not-found tuple, even
though the nearby key "7.5" is present. -/
theorem C5_witness :
    check_weight_status (744/100) 1.4 30 "男"
        (load_thresholds_from_excel [exampleRow747]) =
      .ret (not_found_msg (ageKeyStr (744/100))) none none none
    ∧ ageKeyStr (744/100) = "7.4" ∧ ageKeyStr (747/100) = "7.5"
    ∧ load_thresholds_from_excel [exampleRow747] "7.5" = some (rowEntry exampleRow747) :=
  ⟨C5_exact_key_lookup [exampleRow747] (744/100) 1.4 30 "男"
      (by decide) (by decide) (by decide) (by decide),
    by decide, by decide, by decide⟩

/-- C6: spec scenario 1 — with the table row
`age=10.0, maleOverweight=19.0, maleObese=21.5, femaleOverweight=18.5,
femaleObese=21.0` and subject `age=10.0, height=1.40, weight=37.24, MALE`,
the BMI is `37.24 / 1.96 = 19.0` and the outcome is OVERWEIGHT ("超重"). -/
theorem C6_scenario_one :
    (1.4 : ℚ) ^ 2 = 1.96 ∧ (37.24 : ℚ) / 1.96 = 19 ∧
    check_weight_status 10 1.4 37.24 "男" exampleTable =
      .ret "超重" (some 19) (some 19) (some 21.5) :=
  ⟨by decide, by decide, by decide⟩

/-- C7: the construction loop is last-write-wins — splitting the row list
around its last occurrence of a key, the built table maps that key to that
row's entry (both sexes), whatever came before. -/
theorem C7_last_write_wins (rows1 rows2 : List RawRow) (r : RawRow)
    (hafter : ∀ r2 ∈ rows2, ageKeyStr r2.age ≠ ageKeyStr r.age) :
    load_thresholds_from_excel (rows1 ++ r :: rows2) (ageKeyStr r.age) =
      some (rowEntry r) := by
  unfold load_thresholds_from_excel
  rw [List.foldl_append, List.foldl_cons,
    foldl_insertRow_not_mem rows2 _ _ hafter]
  unfold insertRow
  rw [if_pos rfl]

/-- C7 witness: two rows with the same key "10.0" but different thresholds —
the built table holds the second row's entry, which differs from the first's. -/
theorem C7_witness :
    load_thresholds_from_excel [exampleRow, exampleRowB] (ageKeyStr exampleRowB.age) =
      some (rowEntry exampleRowB)
    ∧ ageKeyStr exampleRow.age = ageKeyStr exampleRowB.age
    ∧ rowEntry exampleRow ≠ rowEntry exampleRowB :=
  ⟨C7_last_write_wins [exampleRow] [] exampleRowB (by decide), by decide, by decide⟩

/-- C8: `check_weight_status` is deterministic — two calls whose five inputs
are pairwise equal return equal results (the embedding is a pure function of
its arguments; the table is only read, never written). -/
theorem C8_deterministic (a1 h1 w1 : ℚ) (g1 : String) (t1 : ThresholdTable)
    (a2 h2 w2 : ℚ) (g2 : String) (t2 : ThresholdTable)
    (ha : a1 = a2) (hh : h1 = h2) (hw : w1 = w2) (hg : g1 = g2) (ht : t1 = t2) :
    check_weight_status a1 h1 w1 g1 t1 = check_weight_status a2 h2 w2 g2 t2 := by
  subst ha; subst hh; subst hw; subst hg; subst ht; rfl

/-- C8 witness: two identical concrete calls agree. -/
theorem C8_witness :
    check_weight_status 10 1.4 37.24 "男" exampleTable =
      check_weight_status 10 1.4 37.24 "男" exampleTable :=
  C8_deterministic 10 1.4 37.24 "男" exampleTable 10 1.4 37.24 "男" exampleTable
    rfl rfl rfl rfl rfl

/-- The dict access `d["男"]` succeeds with the male limits. -/
lemma genderGet_male (d : GenderDict) : genderGet d "男" = some d.male := by
  unfold genderGet
  rw [if_pos rfl]

/-- The dict access `d["女"]` succeeds with the female limits. -/
lemma genderGet_female (d : GenderDict) : genderGet d "女" = some d.female := by
  unfold genderGet
  rw [if_neg (by decide), if_pos rfl]

/-- C1 counterexample: with a valid in-range age, present table key, valid
gender and positive height, but weight `-5 <= 0`, `check_weight_status`
does not fail at all — it returns the success tuple classifying the negative
BMI as "正常", refuting the claim that the core itself rejects non-positive
measurements. -/
theorem C1_counterexample :
    check_weight_status 10 1.4 (-5) "男" exampleTable =
      .ret "正常" (some (-125/49)) (some 19) (some 21.5)
    ∧ isSuccess (check_weight_status 10 1.4 (-5) "男" exampleTable) = true :=
  ⟨by decide, by decide⟩

/-- C1 (amended): `check_weight_status` performs no height/weight validity
check of its own. With in-range age, present key and valid gender it returns
a success tuple for every nonzero height and every weight (non-positive
included), and raises `ZeroDivisionError` at height 0; the strict-positivity
check lives only in the caller `main`, which reports the input-error message
and never invokes the core when height or weight is non-positive. -/
theorem C1_no_core_measurement_check (age h w : ℚ) (g : String)
    (tbl : ThresholdTable) (d : GenderDict) (limits : Limits)
    (h1 : 2 ≤ age) (h2 : age ≤ 18)
    (ht : tbl (ageKeyStr age) = some d) (hg : genderGet d g = some limits) :
    (h ≠ 0 → isSuccess (check_weight_status age h w g tbl) = true)
    ∧ (h = 0 → check_weight_status age h w g tbl = .zeroDivisionError)
    ∧ (∀ hx wx : ℚ, hx ≤ 0 ∨ wx ≤ 0 →
        main_submit age hx wx g tbl = .inputError height_weight_msg) := by
  have hrange : (2 ≤ age ∧ age ≤ 18) := ⟨h1, h2⟩
  refine ⟨?_, ?_, ?_⟩
  · intro hh
    rw [check_weight_status_success age h w g tbl d limits h1 h2 hh ht hg]
    rfl
  · intro hh
    simp only [check_weight_status, hrange, and_self, not_true_eq_false,
      if_false, hh, ite_true]
  · intro hx wx hxw
    unfold main_submit
    rw [if_pos (by rintro ⟨hp, wp⟩; rcases hxw with hc | hc <;> linarith)]

/-- C1 witness: at age 10 with the one-row table, weight `-6` slips through
the core as a success, while `main` blocks the same call at its own guard. -/
theorem C1_witness :
    isSuccess (check_weight_status 10 1.4 (-6) "男" exampleTable) = true
    ∧ main_submit 10 1.4 (-6) "男" exampleTable = .inputError height_weight_msg :=
  ⟨(C1_no_core_measurement_check 10 1.4 (-6) "男" exampleTable (rowEntry exampleRow)
      ⟨19, 21.5⟩ (by decide) (by decide) (by decide) (by decide)).1 (by decide),
    (C1_no_core_measurement_check 10 1.4 (-6) "男" exampleTable (rowEntry exampleRow)
      ⟨19, 21.5⟩ (by decide) (by decide) (by decide) (by decide)).2.2
      1.4 (-6) (Or.inr (by decide))⟩

/-- C2: the boundary law — for an in-range age with present key, valid
gender, nonzero height and well-formed limits (overweight below obese),
a BMI strictly below the overweight threshold is "正常"; a BMI exactly
equal to the overweight threshold is "超重", not "正常"; and a BMI at or
above the obese threshold (equality included) is "肥胖", not "超重". -/
theorem C2_boundary_law (age h w : ℚ) (g : String) (tbl : ThresholdTable)
    (d : GenderDict) (limits : Limits)
    (h1 : 2 ≤ age) (h2 : age ≤ 18) (hh : h ≠ 0)
    (ht : tbl (ageKeyStr age) = some d) (hg : genderGet d g = some limits)
    (hwf : limits.overweight < limits.obese) :
    (w / h ^ 2 < limits.overweight →
      check_weight_status age h w g tbl =
        .ret "正常" (some (w / h ^ 2)) (some limits.overweight) (some limits.obese))
    ∧ (w / h ^ 2 = limits.overweight →
      check_weight_status age h w g tbl =
        .ret "超重" (some (w / h ^ 2)) (some limits.overweight) (some limits.obese))
    ∧ (limits.obese ≤ w / h ^ 2 →
      check_weight_status age h w g tbl =
        .ret "肥胖" (some (w / h ^ 2)) (some limits.overweight) (some limits.obese)) := by
  rw [check_weight_status_success age h w g tbl d limits h1 h2 hh ht hg]
  refine ⟨?_, ?_, ?_⟩
  · intro hlt
    rw [if_pos hlt]
  · intro heq
    rw [if_neg (by rw [heq]; exact lt_irrefl _),
      if_pos ⟨le_of_eq heq.symm, by rw [heq]; exact hwf⟩]
  · intro hge
    rw [if_neg (by intro hlt; linarith),
      if_neg (by rintro ⟨hle, hlt⟩; linarith)]

/-- C2 witness: the exact-boundary case of scenario 1 — BMI
`37.24 / 1.4^2 = 19` equals the male overweight threshold and is classified
"超重". -/
theorem C2_witness :
    check_weight_status 10 1.4 37.24 "男" exampleTable =
      .ret "超重" (some ((37.24 : ℚ) / (1.4 : ℚ) ^ 2)) (some 19) (some 21.5) :=
  (C2_boundary_law 10 1.4 37.24 "男" exampleTable (rowEntry exampleRow) ⟨19, 21.5⟩
      (by decide) (by decide) (by decide) (by decide) (by decide) (by decide)).2.1
    (by decide)

/-- C3 counterexample: with an in-range age present in the table and sex
MALE, but height 0, the call does not return a non-error result — the BMI
division raises `ZeroDivisionError` — refuting the claim for unrestricted
height. -/
theorem C3_counterexample :
    check_weight_status 10 0 30 "男" exampleTable = .zeroDivisionError
    ∧ isSuccess (check_weight_status 10 0 30 "男" exampleTable) = false :=
  ⟨by decide, by decide⟩

/-- C3 (amended): for every age between 2.0 and 18.0 whose key is present in
the table, both sexes, every weight, and every nonzero height,
`check_weight_status` returns a non-error result; at height exactly 0 it
raises `ZeroDivisionError` instead. -/
theorem C3_in_range_success (age h w : ℚ) (g : String) (tbl : ThresholdTable)
    (d : GenderDict)
    (h1 : 2 ≤ age) (h2 : age ≤ 18) (ht : tbl (ageKeyStr age) = some d)
    (hsex : g = "男" ∨ g = "女") (hh : h ≠ 0) :
    isSuccess (check_weight_status age h w g tbl) = true := by
  rcases hsex with hs | hs
  · subst hs
    rw [check_weight_status_success age h w "男" tbl d d.male h1 h2 hh ht
      (genderGet_male d)]
    rfl
  · subst hs
    rw [check_weight_status_success age h w "女" tbl d d.female h1 h2 hh ht
      (genderGet_female d)]
    rfl

/-- C3 witness: a female subject at age 10 in the one-row table gets a
non-error result. -/
theorem C3_witness :
    isSuccess (check_weight_status 10 1.4 37.24 "女" exampleTable) = true :=
  C3_in_range_success 10 1.4 37.24 "女" exampleTable (rowEntry exampleRow)
    (by decide) (by decide) (by decide) (Or.inr rfl) (by decide)

/-- C9: every returned 4-tuple of `check_weight_status` has its last three
components all `None` — with the first component one of the two error
messages — or all non-`None` with the first component one of the three
classification strings; so testing whether the `bmi` component is `None`,
as `main` does, soundly separates error from success. -/
theorem C9_tuple_invariant (age h w : ℚ) (g : String) (tbl : ThresholdTable)
    (s : String) (b ow ob : Option ℚ)
    (hres : check_weight_status age h w g tbl = .ret s b ow ob) :
    (b = none ∧ ow = none ∧ ob = none
      ∧ (s = age_error_msg age ∨ s = not_found_msg (ageKeyStr age)))
    ∨ ((∃ q, b = some q) ∧ (∃ q, ow = some q) ∧ (∃ q, ob = some q)
      ∧ (s = "正常" ∨ s = "超重" ∨ s = "肥胖")) := by
  simp only [check_weight_status] at hres
  split at hres
  · injection hres with hs hb how hob
    exact Or.inl ⟨hb.symm, how.symm, hob.symm, Or.inl hs.symm⟩
  · split at hres
    · exact absurd hres (by simp)
    · split at hres
      · injection hres with hs hb how hob
        exact Or.inl ⟨hb.symm, how.symm, hob.symm, Or.inr hs.symm⟩
      · split at hres
        · exact absurd hres (by simp)
        · injection hres with hs hb how hob
          refine Or.inr ⟨⟨_, hb.symm⟩, ⟨_, how.symm⟩, ⟨_, hob.symm⟩, ?_⟩
          rw [← hs]
          split
          · exact Or.inl rfl
          · split
            · exact Or.inr (Or.inl rfl)
            · exact Or.inr (Or.inr rfl)

/-- C9 witness: the invariant instantiated at the success tuple of
scenario 1. -/
theorem C9_witness :
    (some (19 : ℚ) = none ∧ some (19 : ℚ) = none ∧ some (21.5 : ℚ) = none
      ∧ ("超重" = age_error_msg 10 ∨ "超重" = not_found_msg (ageKeyStr 10)))
    ∨ ((∃ q, some (19 : ℚ) = some q) ∧ (∃ q, some (19 : ℚ) = some q)
      ∧ (∃ q, some (21.5 : ℚ) = some q)
      ∧ ("超重" = "正常" ∨ "超重" = "超重" ∨ "超重" = "肥胖")) :=
  C9_tuple_invariant 10 1.4 37.24 "男" exampleTable "超重"
    (some 19) (some 19) (some 21.5) (by decide)

/-- C10 counterexample: with an in-range age whose key is present but height
0, a call with the non-button gender string "other" raises
`ZeroDivisionError`, not `KeyError` — the BMI division precedes the gender
dict access — so the claim does not hold for unrestricted height. -/
theorem C10_counterexample :
    check_weight_status 10 0 30 "other" exampleTable = .zeroDivisionError
    ∧ check_weight_status 10 0 30 "other" exampleTable ≠ .keyError "other" :=
  ⟨by decide, by decide⟩

/-- C10 (amended): for every gender string other than "男" and "女", a call
with an in-range age whose key is present and nonzero height raises an
uncaught `KeyError` on the gender dict access instead of returning a typed
error tuple; at height 0 the BMI division raises `ZeroDivisionError` first. -/
theorem C10_key_error_on_other_gender (age h w : ℚ) (g : String)
    (tbl : ThresholdTable) (d : GenderDict)
    (h1 : 2 ≤ age) (h2 : age ≤ 18) (ht : tbl (ageKeyStr age) = some d)
    (hm : g ≠ "男") (hf : g ≠ "女") (hh : h ≠ 0) :
    check_weight_status age h w g tbl = .keyError g := by
  have hrange : (2 ≤ age ∧ age ≤ 18) := ⟨h1, h2⟩
  have hgn : genderGet d g = none := by
    unfold genderGet
    rw [if_neg hm, if_neg hf]
  simp only [check_weight_status, hrange, and_self, not_true_eq_false,
    if_false, hh, ite_false, ht, hgn]

/-- C10 witness: the gender string "unknown" with valid age, key and height
raises `KeyError "unknown"`. -/
theorem C10_witness :
    check_weight_status 10 1.4 30 "unknown" exampleTable = .keyError "unknown" :=
  C10_key_error_on_other_gender 10 1.4 30 "unknown" exampleTable (rowEntry exampleRow)
    (by decide) (by decide) (by decide) (by decide) (by decide) (by decide)
